import Mathlib

/-! minishift `pkg/minishift/docker`: the VM Docker commander

A shallow embedding of `docker.go`.  `VmDockerCommander` turns every container
operation into a shell command string, hands it to an injected SSH transport
and normalises the answer.

Modelling decisions:

* Go strings are Lean `String`s (sequences of Unicode code points).
* A Go `error` value is `Option Error`: `none` is `nil`, and an error is
  represented by its message.
* The transport (`provision.SSHCommander`) is an arbitrary deterministic state
  machine over a state type `σ`: a command and the current remote state give
  the answer `(out, err)` and the next remote state.  Answers may therefore
  change from one call to the next.
* Everything the commander does to the outside is recorded, in order, in the
  trace of the `World`: log lines, SSH round trips (command and answer) and
  sleeps.
-/

namespace docker

/-! ## Go runtime pieces used by the package -/

/-- A non-nil Go `error`, represented by its message. -/
structure Error where
  msg : String
  deriving DecidableEq, Repr

/-- Go `errors.New(msg)`. -/
def errors.New (msg : String) : Error := ⟨msg⟩

/-- Go `unicode.IsSpace`: the Latin-1 spaces `\t \n \v \f \r`, space, U+0085
and U+00A0, and the other code points with the Unicode White_Space property. -/
def isSpace (r : Char) : Bool :=
  let n := r.toNat
  (0x09 ≤ n && n ≤ 0x0D) || n == 0x20 || n == 0x85 || n == 0xA0 || n == 0x1680 ||
    (0x2000 ≤ n && n ≤ 0x200A) || n == 0x2028 || n == 0x2029 || n == 0x202F ||
    n == 0x205F || n == 0x3000

/-- Go `strings.TrimSpace`: the string without its leading and trailing white
space, as defined by `unicode.IsSpace`. -/
def TrimSpace (s : String) : String :=
  ⟨((s.data.dropWhile isSpace).reverse.dropWhile isSpace).reverse⟩

/-- Expansion of a `fmt.Sprintf` format over string operands.  Only what the
package uses is modelled: the verb `%s` (the operand is copied literally) and
`%%`; a missing operand and left-over operands are rendered the way Go renders
them.  Every other character of the format is copied. -/
def Sprintf.go : List Char → List String → List Char
  | [], [] => []
  | [], a :: rest =>
    ("%!(EXTRA " ++ ", ".intercalate ((a :: rest).map fun x => "string=" ++ x) ++ ")").data
  | '%' :: 's' :: fmt, a :: rest => a.data ++ Sprintf.go fmt rest
  | '%' :: 's' :: fmt, [] => "%!s(MISSING)".data ++ Sprintf.go fmt []
  | '%' :: '%' :: fmt, args => '%' :: Sprintf.go fmt args
  | c :: fmt, args => c :: Sprintf.go fmt args

/-- Go `fmt.Sprintf(format, args...)` for string operands. -/
def Sprintf (format : String) (args : List String) : String :=
  ⟨Sprintf.go format.data args⟩

/-- Go `time.Duration` counts nanoseconds. -/
abbrev Duration := Nat

/-- Go `time.Second`. -/
def time.Second : Duration := 1000000000

/-! ## The outside world -/

/-- Something the commander does that is visible from outside. -/
inductive Event where
  /-- A `glog.V(level).Info(msg)` line. -/
  | log (level : Nat) (msg : String)
  /-- One `SSHCommand` round trip: the command sent, and the answer. -/
  | ssh (cmd : String) (out : String) (err : Option Error)
  /-- A `time.Sleep(d)`. -/
  | sleep (d : Duration)
  deriving DecidableEq, Repr

/-- The injected transport, `provision.SSHCommander`: `SSHCommand(args)` returns
`(out, err)`; its behaviour may depend on, and change, the remote state. -/
structure SSHCommander (σ : Type) where
  SSHCommand : String → σ → (String × Option Error) × σ

/-- The remote state together with the trace of everything done so far. -/
structure World (σ : Type) where
  remote : σ
  trace : List Event

/-- A world in which nothing has happened yet. -/
def World.init {σ : Type} (s : σ) : World σ := ⟨s, []⟩

/-- Calling `SSHCommand(cmd)` in a world: the transport answers, the remote
state advances and the round trip is recorded. -/
def SSHCommander.call {σ : Type} (t : SSHCommander σ) (cmd : String) (w : World σ) :
    (String × Option Error) × World σ :=
  let r := t.SSHCommand cmd w.remote
  (r.1, { remote := r.2, trace := w.trace ++ [Event.ssh cmd r.1.1 r.1.2] })

/-- Go `time.Sleep(d)`. -/
def time.Sleep {σ : Type} (d : Duration) (w : World σ) : World σ :=
  { w with trace := w.trace ++ [Event.sleep d] }

/-- Go `glog.V(level).Info(msg)`. -/
def glog.Info {σ : Type} (level : Nat) (msg : String) (w : World σ) : World σ :=
  { w with trace := w.trace ++ [Event.log level msg] }

/-! ## `pkg/util` -/

/-- Modelled from the spec: the failure `util.RetryAfter` reports when every
attempt failed; `pkg/util` is not among the sources and the spec says only that
it is a failure.  The model keeps the messages of the attempts, one per line. -/
def exhausted (errs : List Error) : Error :=
  ⟨"\n".intercalate (errs.map Error.msg)⟩

/-- Modelled from the spec: the loop of `util.RetryAfter`; `pkg/util` is not
among the sources.  `n` attempts are left and `errs` are the errors of the
attempts made so far. -/
def RetryAfter.loop {σ : Type} (callback : World σ → Option Error × World σ) (d : Duration) :
    Nat → List Error → World σ → Option Error × World σ
  | 0, errs, w => (some (exhausted errs), w)
  | n + 1, errs, w =>
    let r := callback w
    match r.1 with
    | none => (none, r.2)
    | some e =>
      RetryAfter.loop callback d n (errs ++ [e]) (if n = 0 then r.2 else time.Sleep d r.2)

/-- Modelled from the spec: `util.RetryAfter(attempts, callback, d)`, which is
defined in `pkg/util`, not among the sources.  The spec: the callback is tried
up to `attempts` times, waiting `d` between attempts, succeeding as soon as an
attempt succeeds; if all attempts are exhausted it reports failure.  The spec
fixes only that the exhausted case is a failure; the model reports the errors
of the attempts. -/
def util.RetryAfter {σ : Type} (attempts : Nat) (callback : World σ → Option Error × World σ)
    (d : Duration) (w : World σ) : Option Error × World σ :=
  RetryAfter.loop callback d attempts [] w

/-! ## `VmDockerCommander` -/

/-- The commander: `VmDockerCommander allows to communicate with the Docker
daemon w/i the VM`.  Its only field is the transport. -/
structure VmDockerCommander (σ : Type) where
  commander : SSHCommander σ

/-- Go `NewVmDockerCommander`. -/
def NewVmDockerCommander {σ : Type} (sshCommander : SSHCommander σ) : VmDockerCommander σ :=
  { commander := sshCommander }

namespace VmDockerCommander

variable {σ : Type}

/-- Go `logCommand`. -/
def logCommand (_c : VmDockerCommander σ) (cmd : String) (w : World σ) : World σ :=
  glog.Info 2 (Sprintf "Executing docker command: '%s'" [cmd]) w

/-- Go `Ps`. -/
def Ps (c : VmDockerCommander σ) (w : World σ) : (String × Option Error) × World σ :=
  let cmd := "docker ps"
  let w := c.logCommand cmd w
  let r := c.commander.call cmd w
  ((r.1.1, r.1.2), r.2)

/-- Go `Start`. -/
def Start (c : VmDockerCommander σ) (container : String) (w : World σ) :
    (Bool × Option Error) × World σ :=
  let cmd := Sprintf "docker start %s" [container]
  let w := c.logCommand cmd w
  let r := c.commander.call cmd w
  match r.1.2 with
  | some err => ((false, some err), r.2)
  | none => ((true, none), r.2)

/-- Go `Stop`. -/
def Stop (c : VmDockerCommander σ) (container : String) (w : World σ) :
    (Bool × Option Error) × World σ :=
  let cmd := Sprintf "docker stop %s" [container]
  let w := c.logCommand cmd w
  let r := c.commander.call cmd w
  match r.1.2 with
  | some err => ((false, some err), r.2)
  | none => ((true, none), r.2)

/-- Go `Status`. -/
def Status (c : VmDockerCommander σ) (container : String) (w : World σ) :
    (String × Option Error) × World σ :=
  let cmd := Sprintf "docker inspect --format='\x7b\x7b.State.Status\x7d\x7d' %s" [container]
  let w := c.logCommand cmd w
  let r := c.commander.call cmd w
  let out := TrimSpace r.1.1
  ((out, r.1.2), r.2)

/-- The closure `retry` inside Go `Restart`: one status poll. -/
def Restart.retry (c : VmDockerCommander σ) (container : String) (w : World σ) :
    Option Error × World σ :=
  let r := c.Status container w
  match r.1.2 with
  | some err => (some err, r.2)
  | none =>
    if r.1.1 != "running" then
      (some (errors.New (Sprintf "Unexpected container state '%s'" [r.1.1])), r.2)
    else
      (none, r.2)

/-- Go `Restart`. -/
def Restart (c : VmDockerCommander σ) (container : String) (w : World σ) :
    (Bool × Option Error) × World σ :=
  let r := c.Stop container w
  match r.1.2 with
  | some err => ((false, some err), r.2)
  | none =>
    let r := c.Start container r.2
    match r.1.2 with
    | some err => ((false, some err), r.2)
    | none =>
      let w := time.Sleep (3 * time.Second) r.2
      let r := util.RetryAfter 5 (Restart.retry c container) (1 * time.Second) w
      match r.1 with
      | some err => ((false, some err), r.2)
      | none => ((true, none), r.2)

/-- Go `Cp`. -/
def Cp (c : VmDockerCommander σ) (source container target : String) (w : World σ) :
    Option Error × World σ :=
  let cmd := Sprintf "docker cp %s:%s %s" [container, source, target]
  let w := c.logCommand cmd w
  let r := c.commander.call cmd w
  (r.1.2, r.2)

/-- Go `CpToContainer`. -/
def CpToContainer (c : VmDockerCommander σ) (source container target : String) (w : World σ) :
    Option Error × World σ :=
  let cmd := Sprintf "docker cp %s %s:%s" [source, container, target]
  let w := c.logCommand cmd w
  let r := c.commander.call cmd w
  (r.1.2, r.2)

/-- Go `Exec`. -/
def Exec (c : VmDockerCommander σ) (options container command args : String) (w : World σ) :
    (String × Option Error) × World σ :=
  let cmd := Sprintf "docker exec %s %s %s %s" [options, container, command, args]
  let w := c.logCommand cmd w
  c.commander.call cmd w

/-- Go `LocalExec`. -/
def LocalExec (c : VmDockerCommander σ) (cmd : String) (w : World σ) :
    (String × Option Error) × World σ :=
  let w := c.logCommand cmd w
  let r := c.commander.call cmd w
  ((r.1.1, r.1.2), r.2)

/-- Go `Run`. -/
def Run (c : VmDockerCommander σ) (options container : String) (w : World σ) :
    (Bool × Option Error) × World σ :=
  let cmd := Sprintf "docker run %s %s" [options, container]
  let w := c.logCommand cmd w
  let r := c.commander.call cmd w
  match r.1.2 with
  | some err => ((false, some err), r.2)
  | none => ((true, none), r.2)

/-- Go `Create`. -/
def Create (c : VmDockerCommander σ) (options image : String) (w : World σ) :
    (String × Option Error) × World σ :=
  let cmd := Sprintf "docker create %s %s" [options, image]
  let w := c.logCommand cmd w
  let r := c.commander.call cmd w
  match r.1.2 with
  | some err => (("", some err), r.2)
  | none => ((r.1.1, none), r.2)

/-- Go `Rm`. -/
def Rm (c : VmDockerCommander σ) (container : String) (w : World σ) : Option Error × World σ :=
  let cmd := Sprintf "docker rm %s" [container]
  let w := c.logCommand cmd w
  let r := c.commander.call cmd w
  match r.1.2 with
  | some err => (some err, r.2)
  | none => (none, r.2)

/-- Go `GetID`.  The format is the raw string literal of the source. -/
def GetID (c : VmDockerCommander σ) (label : String) (w : World σ) :
    (String × Option Error) × World σ :=
  let cmd := Sprintf "docker ps -l -qf \"label=\"%s\"\"" [label]
  let w := c.logCommand cmd w
  let r := c.commander.call cmd w
  let out := TrimSpace r.1.1
  ((out, r.1.2), r.2)

/-- Go `Pull`. -/
def Pull (c : VmDockerCommander σ) (image : String) (w : World σ) :
    (String × Option Error) × World σ :=
  let cmd := Sprintf "docker pull %s" [image]
  let w := c.logCommand cmd w
  let r := c.commander.call cmd w
  let out := TrimSpace r.1.1
  ((out, r.1.2), r.2)

/-- Go `IsImageExist`. -/
def IsImageExist (c : VmDockerCommander σ) (image : String) (w : World σ) :
    (Bool × Option Error) × World σ :=
  let cmd := Sprintf "docker images -q %s" [image]
  let exist := false
  let w := c.logCommand cmd w
  let r := c.commander.call cmd w
  let out := TrimSpace r.1.1
  let exist := if out != "" then true else exist
  ((exist, r.1.2), r.2)

end VmDockerCommander

/-! ## Observations on traces -/

/-- The command of an SSH round trip. -/
def Event.command : Event → Option String
  | .ssh cmd _ _ => some cmd
  | _ => none

/-- The answer `(out, err)` of an SSH round trip that sent `cmd`. -/
def Event.answerTo (cmd : String) : Event → Option (String × Option Error)
  | .ssh cmd1 out err => if cmd1 = cmd then some (out, err) else none
  | _ => none

/-- What happened between world `w` and the later world `w1`. -/
def since {σ : Type} (w w1 : World σ) : List Event :=
  w1.trace.drop w.trace.length

/-- The commands sent through the transport between `w` and `w1`, in order. -/
def sent {σ : Type} (w w1 : World σ) : List String :=
  (since w w1).filterMap Event.command

/-- The command string of a status query for `container`. -/
def statusCmd (container : String) : String :=
  "docker inspect --format='\x7b\x7b.State.Status\x7d\x7d' " ++ container

/-- The answers to the status queries for `container` sent between `w` and
`w1`, in order. -/
def polls {σ : Type} (container : String) (w w1 : World σ) : List (String × Option Error) :=
  (since w w1).filterMap (Event.answerTo (statusCmd container))

/-- A transport answer that reports the container running: no error, and the
trimmed output is exactly `running`. -/
def isRunning (a : String × Option Error) : Bool :=
  a.2.isNone && TrimSpace a.1 == "running"

/-- The answers the transport gives to `n` successive queries `cmd`, starting
in remote state `s`. -/
def answers {σ : Type} (t : SSHCommander σ) (cmd : String) : Nat → σ → List (String × Option Error)
  | 0, _ => []
  | n + 1, s => (t.SSHCommand cmd s).1 :: answers t cmd n (t.SSHCommand cmd s).2

/-- The polls a retry loop makes when the transport would answer `as` to
successive polls: every answer up to and including the first one that reports
the container running. -/
def made : List (String × Option Error) → List (String × Option Error)
  | [] => []
  | a :: as => if isRunning a then [a] else a :: made as

/-! ## Test transports -/

/-- A transport that replays a script: each call consumes the next answer,
whatever the command; when the script is over every call fails. -/
def scripted : SSHCommander (List (String × Option Error)) where
  SSHCommand := fun _ s =>
    match s with
    | [] => (("", some ⟨"script exhausted"⟩), [])
    | a :: rest => (a, rest)

/-- The commander over the scripted transport. -/
def fake : VmDockerCommander (List (String × Option Error)) :=
  NewVmDockerCommander scripted

/-- Stop and start succeed; every one of the next five answers says `running`
but carries a transport error. -/
def brokenPolls : World (List (String × Option Error)) :=
  World.init [("", none), ("", none),
    ("running", some ⟨"broken pipe"⟩), ("running", some ⟨"broken pipe"⟩),
    ("running", some ⟨"broken pipe"⟩), ("running", some ⟨"broken pipe"⟩),
    ("running", some ⟨"broken pipe"⟩)]

/-- Stop and start succeed; the status polls answer `exited`, `exited`,
`running`. -/
def thirdPollRunning : World (List (String × Option Error)) :=
  World.init [("", none), ("", none), ("exited\n", none), ("exited\n", none), ("running\n", none)]

/-- The transport fails the first command. -/
def stopFails : World (List (String × Option Error)) :=
  World.init [("", some ⟨"stop failed"⟩), ("", none), ("running", none)]

/-- The transport accepts the first command and fails the second. -/
def startFails : World (List (String × Option Error)) :=
  World.init [("", none), ("", some ⟨"start failed"⟩), ("running", none)]

/-- The transport's answer to `cmd` in world `w`. -/
def reply {σ : Type} (c : VmDockerCommander σ) (cmd : String) (w : World σ) :
    String × Option Error :=
  (c.commander.SSHCommand cmd w.remote).1

/-- The world after logging `cmd` and sending it through the transport once. -/
def oneShot {σ : Type} (c : VmDockerCommander σ) (cmd : String) (w : World σ) : World σ :=
  (c.commander.call cmd (c.logCommand cmd w)).2

/-! ## Basic facts -/

section basics

variable {σ : Type}

theorem all_dropWhile (p : Char → Bool) (l : List Char) :
    (∀ x ∈ l.dropWhile p, p x = true) ↔ ∀ x ∈ l, p x = true := by
  induction l with
  | nil => simp
  | cons a l ih =>
    by_cases h : p a = true
    · simp [List.dropWhile_cons, h, ih]
    · simp [List.dropWhile_cons, h]

theorem TrimSpace_eq_empty_iff (s : String) :
    TrimSpace s = "" ↔ ∀ ch ∈ s.data, isSpace ch = true := by
  unfold TrimSpace
  rw [String.ext_iff]
  simp only [List.reverse_eq_nil_iff, List.dropWhile_eq_nil_iff]
  constructor
  · intro h
    apply (all_dropWhile isSpace s.data).1
    intro x hx
    exact h x (List.mem_reverse.2 hx)
  · intro h x hx
    exact (all_dropWhile isSpace s.data).2 h x (List.mem_reverse.1 hx)

/-! ### The command templates -/

theorem Sprintf_log (a : String) :
    Sprintf "Executing docker command: '%s'" [a] = "Executing docker command: '" ++ a ++ "'" := by
  simp [Sprintf, Sprintf.go, String.ext_iff]

theorem Sprintf_start (a : String) : Sprintf "docker start %s" [a] = "docker start " ++ a := by
  simp [Sprintf, Sprintf.go, String.ext_iff]

theorem Sprintf_stop (a : String) : Sprintf "docker stop %s" [a] = "docker stop " ++ a := by
  simp [Sprintf, Sprintf.go, String.ext_iff]

theorem Sprintf_status (a : String) :
    Sprintf "docker inspect --format='\x7b\x7b.State.Status\x7d\x7d' %s" [a] = statusCmd a := by
  simp [Sprintf, Sprintf.go, String.ext_iff, statusCmd]

theorem Sprintf_cp (a b d : String) :
    Sprintf "docker cp %s:%s %s" [a, b, d] = "docker cp " ++ a ++ ":" ++ b ++ " " ++ d := by
  simp [Sprintf, Sprintf.go, String.ext_iff]

theorem Sprintf_cpTo (a b d : String) :
    Sprintf "docker cp %s %s:%s" [a, b, d] = "docker cp " ++ a ++ " " ++ b ++ ":" ++ d := by
  simp [Sprintf, Sprintf.go, String.ext_iff]

theorem Sprintf_exec (a b d e : String) :
    Sprintf "docker exec %s %s %s %s" [a, b, d, e]
      = "docker exec " ++ a ++ " " ++ b ++ " " ++ d ++ " " ++ e := by
  simp [Sprintf, Sprintf.go, String.ext_iff]

theorem Sprintf_run (a b : String) :
    Sprintf "docker run %s %s" [a, b] = "docker run " ++ a ++ " " ++ b := by
  simp [Sprintf, Sprintf.go, String.ext_iff]

theorem Sprintf_create (a b : String) :
    Sprintf "docker create %s %s" [a, b] = "docker create " ++ a ++ " " ++ b := by
  simp [Sprintf, Sprintf.go, String.ext_iff]

theorem Sprintf_rm (a : String) : Sprintf "docker rm %s" [a] = "docker rm " ++ a := by
  simp [Sprintf, Sprintf.go, String.ext_iff]

theorem Sprintf_getID (a : String) :
    Sprintf "docker ps -l -qf \"label=\"%s\"\"" [a]
      = "docker ps -l -qf \"label=\"" ++ a ++ "\"\"" := by
  simp [Sprintf, Sprintf.go, String.ext_iff]

theorem Sprintf_pull (a : String) : Sprintf "docker pull %s" [a] = "docker pull " ++ a := by
  simp [Sprintf, Sprintf.go, String.ext_iff]

theorem Sprintf_images (a : String) :
    Sprintf "docker images -q %s" [a] = "docker images -q " ++ a := by
  simp [Sprintf, Sprintf.go, String.ext_iff]

/-! ### One round trip -/

theorem oneShot_trace (c : VmDockerCommander σ) (cmd : String) (w : World σ) :
    (oneShot c cmd w).trace
      = w.trace ++ [Event.log 2 ("Executing docker command: '" ++ cmd ++ "'"),
          Event.ssh cmd (reply c cmd w).1 (reply c cmd w).2] := by
  simp [oneShot, SSHCommander.call, VmDockerCommander.logCommand, glog.Info, Sprintf_log, reply]

theorem oneShot_remote (c : VmDockerCommander σ) (cmd : String) (w : World σ) :
    (oneShot c cmd w).remote = (c.commander.SSHCommand cmd w.remote).2 := by
  simp [oneShot, SSHCommander.call, VmDockerCommander.logCommand, glog.Info]

theorem since_append (w w1 : World σ) (es : List Event) (h : w1.trace = w.trace ++ es) :
    since w w1 = es := by
  simp [since, h]

theorem sent_oneShot (c : VmDockerCommander σ) (cmd : String) (w : World σ) :
    sent w (oneShot c cmd w) = [cmd] := by
  simp [sent, since_append w _ _ (oneShot_trace c cmd w), Event.command]

theorem call_fst (c : VmDockerCommander σ) (cmd : String) (w : World σ) :
    (c.commander.call cmd (c.logCommand cmd w)).1 = reply c cmd w := by
  simp [SSHCommander.call, VmDockerCommander.logCommand, glog.Info, reply]

/-! ### The single-shot operations -/

theorem Ps_eq (c : VmDockerCommander σ) (w : World σ) :
    c.Ps w = (reply c "docker ps" w, oneShot c "docker ps" w) := by
  simp [VmDockerCommander.Ps, call_fst, oneShot]

theorem Start_eq (c : VmDockerCommander σ) (container : String) (w : World σ) :
    c.Start container w
      = (((reply c ("docker start " ++ container) w).2.isNone,
          (reply c ("docker start " ++ container) w).2),
         oneShot c ("docker start " ++ container) w) := by
  simp only [VmDockerCommander.Start, Sprintf_start, call_fst, oneShot]
  cases (reply c ("docker start " ++ container) w).2 <;> rfl

theorem Stop_eq (c : VmDockerCommander σ) (container : String) (w : World σ) :
    c.Stop container w
      = (((reply c ("docker stop " ++ container) w).2.isNone,
          (reply c ("docker stop " ++ container) w).2),
         oneShot c ("docker stop " ++ container) w) := by
  simp only [VmDockerCommander.Stop, Sprintf_stop, call_fst, oneShot]
  cases (reply c ("docker stop " ++ container) w).2 <;> rfl

theorem Run_eq (c : VmDockerCommander σ) (options container : String) (w : World σ) :
    c.Run options container w
      = (((reply c ("docker run " ++ options ++ " " ++ container) w).2.isNone,
          (reply c ("docker run " ++ options ++ " " ++ container) w).2),
         oneShot c ("docker run " ++ options ++ " " ++ container) w) := by
  simp only [VmDockerCommander.Run, Sprintf_run, call_fst, oneShot]
  cases (reply c ("docker run " ++ options ++ " " ++ container) w).2 <;> rfl

theorem Status_eq (c : VmDockerCommander σ) (container : String) (w : World σ) :
    c.Status container w
      = ((TrimSpace (reply c (statusCmd container) w).1, (reply c (statusCmd container) w).2),
         oneShot c (statusCmd container) w) := by
  simp only [VmDockerCommander.Status, Sprintf_status, call_fst, oneShot]

theorem Pull_eq (c : VmDockerCommander σ) (image : String) (w : World σ) :
    c.Pull image w
      = ((TrimSpace (reply c ("docker pull " ++ image) w).1,
          (reply c ("docker pull " ++ image) w).2),
         oneShot c ("docker pull " ++ image) w) := by
  simp only [VmDockerCommander.Pull, Sprintf_pull, call_fst, oneShot]

theorem GetID_eq (c : VmDockerCommander σ) (label : String) (w : World σ) :
    c.GetID label w
      = ((TrimSpace (reply c ("docker ps -l -qf \"label=\"" ++ label ++ "\"\"") w).1,
          (reply c ("docker ps -l -qf \"label=\"" ++ label ++ "\"\"") w).2),
         oneShot c ("docker ps -l -qf \"label=\"" ++ label ++ "\"\"") w) := by
  simp only [VmDockerCommander.GetID, Sprintf_getID, call_fst, oneShot]

theorem IsImageExist_eq (c : VmDockerCommander σ) (image : String) (w : World σ) :
    c.IsImageExist image w
      = ((TrimSpace (reply c ("docker images -q " ++ image) w).1 != "",
          (reply c ("docker images -q " ++ image) w).2),
         oneShot c ("docker images -q " ++ image) w) := by
  simp only [VmDockerCommander.IsImageExist, Sprintf_images, call_fst, oneShot]
  cases (TrimSpace (reply c ("docker images -q " ++ image) w).1 != "") <;> rfl

theorem Create_eq (c : VmDockerCommander σ) (options image : String) (w : World σ) :
    c.Create options image w
      = ((match (reply c ("docker create " ++ options ++ " " ++ image) w).2 with
          | some err => ("", some err)
          | none => ((reply c ("docker create " ++ options ++ " " ++ image) w).1, none)),
         oneShot c ("docker create " ++ options ++ " " ++ image) w) := by
  simp only [VmDockerCommander.Create, Sprintf_create, call_fst, oneShot]
  cases (reply c ("docker create " ++ options ++ " " ++ image) w).2 <;> rfl

theorem Exec_eq (c : VmDockerCommander σ) (options container command args : String)
    (w : World σ) :
    c.Exec options container command args w
      = (reply c ("docker exec " ++ options ++ " " ++ container ++ " " ++ command ++ " " ++ args) w,
         oneShot c
           ("docker exec " ++ options ++ " " ++ container ++ " " ++ command ++ " " ++ args) w) := by
  simp only [VmDockerCommander.Exec, Sprintf_exec, oneShot]
  rw [← call_fst]

theorem LocalExec_eq (c : VmDockerCommander σ) (cmd : String) (w : World σ) :
    c.LocalExec cmd w = (reply c cmd w, oneShot c cmd w) := by
  simp [VmDockerCommander.LocalExec, call_fst, oneShot]

theorem Cp_eq (c : VmDockerCommander σ) (source container target : String) (w : World σ) :
    c.Cp source container target w
      = ((reply c ("docker cp " ++ container ++ ":" ++ source ++ " " ++ target) w).2,
         oneShot c ("docker cp " ++ container ++ ":" ++ source ++ " " ++ target) w) := by
  simp only [VmDockerCommander.Cp, Sprintf_cp, call_fst, oneShot]

theorem CpToContainer_eq (c : VmDockerCommander σ) (source container target : String)
    (w : World σ) :
    c.CpToContainer source container target w
      = ((reply c ("docker cp " ++ source ++ " " ++ container ++ ":" ++ target) w).2,
         oneShot c ("docker cp " ++ source ++ " " ++ container ++ ":" ++ target) w) := by
  simp only [VmDockerCommander.CpToContainer, Sprintf_cpTo, call_fst, oneShot]

theorem Rm_eq (c : VmDockerCommander σ) (container : String) (w : World σ) :
    c.Rm container w
      = ((reply c ("docker rm " ++ container) w).2, oneShot c ("docker rm " ++ container) w) := by
  simp only [VmDockerCommander.Rm, Sprintf_rm, call_fst, oneShot]
  cases (reply c ("docker rm " ++ container) w).2 <;> rfl

/-! ### The retry loop of `Restart` -/

theorem made_of_none (l : List (String × Option Error)) (h : ∀ p ∈ l, isRunning p = false) :
    made l = l := by
  induction l with
  | nil => rfl
  | cons p l ih =>
    have hp : isRunning p = false := h p (List.mem_cons_self _ _)
    simp [made, hp, ih (fun q hq => h q (List.mem_cons_of_mem _ hq))]

theorem made_any (l : List (String × Option Error)) :
    (∃ p ∈ made l, isRunning p = true) ↔ ∃ p ∈ l, isRunning p = true := by
  induction l with
  | nil => simp [made]
  | cons p l ih =>
    by_cases hp : isRunning p = true
    · simp [made, hp]
    · simp [made, hp, ih]

theorem made_length_le (l : List (String × Option Error)) : (made l).length ≤ l.length := by
  induction l with
  | nil => simp [made]
  | cons p l ih =>
    by_cases hp : isRunning p = true
    · simp [made, hp]
    · simp [made, hp, ih]

theorem made_length_pos (l : List (String × Option Error)) (h : l ≠ []) :
    1 ≤ (made l).length := by
  cases l with
  | nil => exact absurd rfl h
  | cons p l =>
    by_cases hp : isRunning p = true
    · simp [made, hp]
    · simp [made, hp]

theorem answers_length (t : SSHCommander σ) (cmd : String) (n : Nat) (s : σ) :
    (answers t cmd n s).length = n := by
  induction n generalizing s with
  | zero => rfl
  | succ n ih => simp [answers, ih]

theorem retry_snd (c : VmDockerCommander σ) (container : String) (w : World σ) :
    (VmDockerCommander.Restart.retry c container w).2 = oneShot c (statusCmd container) w := by
  unfold VmDockerCommander.Restart.retry
  simp only [Status_eq]
  split
  · rfl
  · split <;> rfl

theorem retry_fst (c : VmDockerCommander σ) (container : String) (w : World σ) :
    (VmDockerCommander.Restart.retry c container w).1 = none
      ↔ isRunning (reply c (statusCmd container) w) = true := by
  unfold VmDockerCommander.Restart.retry
  simp only [Status_eq, isRunning]
  cases h : (reply c (statusCmd container) w).2 with
  | some e => simp
  | none =>
    by_cases h1 : TrimSpace (reply c (statusCmd container) w).1 = "running"
    · simp [h1]
    · simp [h1]

theorem loop_succ (cb : World σ → Option Error × World σ) (d : Duration) (n : Nat)
    (errs : List Error) (w : World σ) :
    RetryAfter.loop cb d (n + 1) errs w
      = match (cb w).1 with
        | none => (none, (cb w).2)
        | some e =>
          RetryAfter.loop cb d n (errs ++ [e]) (if n = 0 then (cb w).2 else time.Sleep d (cb w).2) := by
  rfl

theorem loop_spec (c : VmDockerCommander σ) (container : String) (d : Duration) (n : Nat) :
    ∀ (errs : List Error) (w : World σ),
      ∃ es : List Event,
        (RetryAfter.loop (VmDockerCommander.Restart.retry c container) d n errs w).2.trace
            = w.trace ++ es
        ∧ es.filterMap (Event.answerTo (statusCmd container))
            = made (answers c.commander (statusCmd container) n w.remote)
        ∧ es.filterMap Event.command
            = List.replicate (made (answers c.commander (statusCmd container) n w.remote)).length
                (statusCmd container)
        ∧ ((RetryAfter.loop (VmDockerCommander.Restart.retry c container) d n errs w).1 = none
            ↔ ∃ p ∈ answers c.commander (statusCmd container) n w.remote, isRunning p = true) := by
  induction n with
  | zero =>
    intro errs w
    exact ⟨[], by simp [RetryAfter.loop, answers, made]⟩
  | succ n ih =>
    intro errs w
    rw [loop_succ]
    have hsnd := retry_snd c container w
    have hfst := retry_fst c container w
    have hrep : (c.commander.SSHCommand (statusCmd container) w.remote).1
        = reply c (statusCmd container) w := rfl
    cases h : (VmDockerCommander.Restart.retry c container w).1 with
    | none =>
      have hrun : isRunning (reply c (statusCmd container) w) = true := hfst.1 h
      refine ⟨[Event.log 2 ("Executing docker command: '" ++ statusCmd container ++ "'"),
        Event.ssh (statusCmd container) (reply c (statusCmd container) w).1
          (reply c (statusCmd container) w).2], ?_, ?_, ?_, ?_⟩
      · simp only [hsnd, oneShot_trace]
      · simp [answers, made, hrep, hrun, Event.answerTo]
      · simp [answers, made, hrep, hrun, Event.command]
      · simp only [answers, hrep, List.mem_cons, true_iff]
        exact ⟨_, Or.inl rfl, hrun⟩
    | some e =>
      have hrun : isRunning (reply c (statusCmd container) w) = false := by
        cases hr : isRunning (reply c (statusCmd container) w) with
        | false => rfl
        | true => rw [hfst.2 hr] at h; cases h
      simp only [hsnd]
      obtain ⟨es, h1, h2, h3, h4⟩ := ih (errs ++ [e])
        (if n = 0 then oneShot c (statusCmd container) w
         else time.Sleep d (oneShot c (statusCmd container) w))
      have hrem : (if n = 0 then oneShot c (statusCmd container) w
          else time.Sleep d (oneShot c (statusCmd container) w)).remote
            = (c.commander.SSHCommand (statusCmd container) w.remote).2 := by
        split <;> simp [time.Sleep, oneShot_remote]
      rw [hrem] at h2 h3 h4
      refine ⟨[Event.log 2 ("Executing docker command: '" ++ statusCmd container ++ "'"),
        Event.ssh (statusCmd container) (reply c (statusCmd container) w).1
          (reply c (statusCmd container) w).2]
          ++ (if n = 0 then [] else [Event.sleep d]) ++ es, ?_, ?_, ?_, ?_⟩
      · rw [h1]
        by_cases hn : n = 0
        · simp [hn, oneShot_trace]
        · simp [hn, time.Sleep, oneShot_trace]
      · by_cases hn : n = 0
        · simp [hn, answers, made, hrep, hrun, Event.answerTo, h2]
        · simp [hn, answers, made, hrep, hrun, Event.answerTo, h2]
      · by_cases hn : n = 0
        · simp [hn, answers, made, hrep, hrun, Event.command, h3, List.replicate_succ]
        · simp [hn, answers, made, hrep, hrun, Event.command, h3, List.replicate_succ]
      · rw [h4]
        simp only [answers, hrep, List.mem_cons]
        constructor
        · rintro ⟨p, hp, hpr⟩
          exact ⟨p, Or.inr hp, hpr⟩
        · rintro ⟨p, hp | hp, hpr⟩
          · rw [hp, hrun] at hpr; cases hpr
          · exact ⟨p, hp, hpr⟩

/-! ### `Restart` -/

theorem Restart_stop_failed (c : VmDockerCommander σ) (container : String) (w : World σ)
    (e : Error) (h : (c.Stop container w).1.2 = some e) :
    c.Restart container w = ((false, some e), (c.Stop container w).2) := by
  unfold VmDockerCommander.Restart
  simp only [h]

theorem Restart_start_failed (c : VmDockerCommander σ) (container : String) (w : World σ)
    (e : Error) (h0 : (c.Stop container w).1.2 = none)
    (h : (c.Start container (c.Stop container w).2).1.2 = some e) :
    c.Restart container w = ((false, some e), (c.Start container (c.Stop container w).2).2) := by
  unfold VmDockerCommander.Restart
  simp only [h0, h]

theorem Restart_polling (c : VmDockerCommander σ) (container : String) (w : World σ)
    (h0 : (c.Stop container w).1.2 = none)
    (h1 : (c.Start container (c.Stop container w).2).1.2 = none) :
    c.Restart container w
      = ((match (util.RetryAfter 5 (VmDockerCommander.Restart.retry c container)
            (1 * time.Second)
            (time.Sleep (3 * time.Second) (c.Start container (c.Stop container w).2).2)).1 with
          | some err => (false, some err)
          | none => (true, none)),
         (util.RetryAfter 5 (VmDockerCommander.Restart.retry c container) (1 * time.Second)
            (time.Sleep (3 * time.Second) (c.Start container (c.Stop container w).2).2)).2) := by
  unfold VmDockerCommander.Restart
  simp only [h0, h1]
  split <;> rfl

theorem sent_Stop_Start (c : VmDockerCommander σ) (container : String) (w : World σ) :
    sent w (c.Start container (c.Stop container w).2).2
      = ["docker stop " ++ container, "docker start " ++ container] := by
  have htr : (c.Start container (c.Stop container w).2).2.trace
      = w.trace ++ [Event.log 2 ("Executing docker command: '" ++ ("docker stop " ++ container) ++ "'"),
        Event.ssh ("docker stop " ++ container) (reply c ("docker stop " ++ container) w).1
          (reply c ("docker stop " ++ container) w).2,
        Event.log 2 ("Executing docker command: '" ++ ("docker start " ++ container) ++ "'"),
        Event.ssh ("docker start " ++ container)
          (reply c ("docker start " ++ container) (oneShot c ("docker stop " ++ container) w)).1
          (reply c ("docker start " ++ container)
            (oneShot c ("docker stop " ++ container) w)).2] := by
    simp [Start_eq, Stop_eq, oneShot_trace]
  simp only [sent, since_append _ _ _ htr]
  simp [Event.command]

theorem statusCmd_ne_stop (container : String) :
    ¬ ("docker stop " ++ container = statusCmd container) := by
  simp [statusCmd, String.ext_iff]

theorem statusCmd_ne_start (container : String) :
    ¬ ("docker start " ++ container = statusCmd container) := by
  simp [statusCmd, String.ext_iff]

theorem Restart_polling_spec (c : VmDockerCommander σ) (container : String) (w : World σ)
    (h0 : (c.Stop container w).1.2 = none)
    (h1 : (c.Start container (c.Stop container w).2).1.2 = none) :
    polls container w (c.Restart container w).2
        = made (answers c.commander (statusCmd container) 5
            (c.Start container (c.Stop container w).2).2.remote)
      ∧ sent w (c.Restart container w).2
        = ("docker stop " ++ container) :: ("docker start " ++ container)
            :: List.replicate (made (answers c.commander (statusCmd container) 5
                (c.Start container (c.Stop container w).2).2.remote)).length (statusCmd container)
      ∧ ((c.Restart container w).1 = (true, none)
          ↔ ∃ p ∈ answers c.commander (statusCmd container) 5
              (c.Start container (c.Stop container w).2).2.remote, isRunning p = true)
      ∧ ((c.Restart container w).1 = (true, none)
          ∨ ((c.Restart container w).1.1 = false ∧ (c.Restart container w).1.2 ≠ none)) := by
  rw [Restart_polling c container w h0 h1]
  obtain ⟨es, h2, h3, h4, h5⟩ := loop_spec c container (1 * time.Second) 5 []
    (time.Sleep (3 * time.Second) (c.Start container (c.Stop container w).2).2)
  have hrem : (time.Sleep (3 * time.Second) (c.Start container (c.Stop container w).2).2).remote
      = (c.Start container (c.Stop container w).2).2.remote := rfl
  rw [hrem] at h3 h4 h5
  have htr : (util.RetryAfter 5 (VmDockerCommander.Restart.retry c container) (1 * time.Second)
      (time.Sleep (3 * time.Second) (c.Start container (c.Stop container w).2).2)).2.trace
      = w.trace ++ ([Event.log 2 ("Executing docker command: '" ++ ("docker stop " ++ container) ++ "'"),
          Event.ssh ("docker stop " ++ container) (reply c ("docker stop " ++ container) w).1
            (reply c ("docker stop " ++ container) w).2,
          Event.log 2 ("Executing docker command: '" ++ ("docker start " ++ container) ++ "'"),
          Event.ssh ("docker start " ++ container)
            (reply c ("docker start " ++ container) (oneShot c ("docker stop " ++ container) w)).1
            (reply c ("docker start " ++ container) (oneShot c ("docker stop " ++ container) w)).2,
          Event.sleep (3 * time.Second)] ++ es) := by
    unfold util.RetryAfter
    rw [h2]
    simp [time.Sleep, Start_eq, Stop_eq, oneShot_trace]
  refine ⟨?_, ?_, ?_, ?_⟩
  · simp only [polls, since_append _ _ _ htr]
    simp [Event.answerTo, statusCmd_ne_stop, statusCmd_ne_start, h3]
  · simp only [sent, since_append _ _ _ htr]
    simp [Event.command, h4]
  · rw [← h5]
    unfold util.RetryAfter
    cases (RetryAfter.loop (VmDockerCommander.Restart.retry c container) (1 * time.Second) 5 []
      (time.Sleep (3 * time.Second) (c.Start container (c.Stop container w).2).2)).1 <;> simp
  · unfold util.RetryAfter
    cases (RetryAfter.loop (VmDockerCommander.Restart.retry c container) (1 * time.Second) 5 []
      (time.Sleep (3 * time.Second) (c.Start container (c.Stop container w).2).2)).1 <;> simp

theorem made_of_first (l : List (String × Option Error)) :
    ∀ (k : Nat) (a : String × Option Error), l[k]? = some a → isRunning a = true →
      (∀ i, i < k → ∀ p, l[i]? = some p → isRunning p = false) →
      made l = l.take (k + 1) := by
  induction l with
  | nil => intro k a h; simp at h
  | cons x l ih =>
    intro k a h ha hpre
    cases k with
    | zero =>
      simp at h
      subst h
      simp [made, ha]
    | succ k =>
      have hx : isRunning x = false := hpre 0 (Nat.succ_pos k) x (by simp)
      have h1 : l[k]? = some a := by simpa using h
      have ih1 := ih k a h1 ha (fun i hi p hp => hpre (i + 1) (Nat.succ_lt_succ hi) p (by simpa using hp))
      simp [made, hx, ih1]

theorem isRunning_iff (p : String × Option Error) :
    isRunning p = true ↔ p.2 = none ∧ TrimSpace p.1 = "running" := by
  simp [isRunning]

theorem Stop_err (c : VmDockerCommander σ) (container : String) (w : World σ) :
    (c.Stop container w).1.2 = (reply c ("docker stop " ++ container) w).2 := by
  rw [Stop_eq]

theorem Start_err (c : VmDockerCommander σ) (container : String) (w : World σ) :
    (c.Start container w).1.2 = (reply c ("docker start " ++ container) w).2 := by
  rw [Start_eq]

end basics

/-! ## The claims about `Restart` -/

section restart

variable {σ : Type}

/-- C1: `Restart` sends the stop command first; if the transport fails the stop
command with error `e`, `Restart` returns `(false, e)` and the stop command is
the only command sent (no start, no status query); if stop succeeds, the start
command is sent second, and if the transport fails it with error `e`,
`Restart` returns `(false, e)` and stop and start are the only commands sent
(no status query). -/
theorem Restart_stop_then_start (c : VmDockerCommander σ) (container : String) (w : World σ) :
    (sent w (c.Restart container w).2).head? = some ("docker stop " ++ container)
    ∧ (∀ e : Error, (reply c ("docker stop " ++ container) w).2 = some e →
        (c.Restart container w).1 = (false, some e)
        ∧ sent w (c.Restart container w).2 = ["docker stop " ++ container])
    ∧ ((reply c ("docker stop " ++ container) w).2 = none →
        (sent w (c.Restart container w).2).take 2
            = ["docker stop " ++ container, "docker start " ++ container]
        ∧ ∀ e : Error,
            (reply c ("docker start " ++ container) (c.Stop container w).2).2 = some e →
            (c.Restart container w).1 = (false, some e)
            ∧ sent w (c.Restart container w).2
                = ["docker stop " ++ container, "docker start " ++ container]) := by
  have hstopW : (c.Stop container w).2 = oneShot c ("docker stop " ++ container) w := by
    rw [Stop_eq]
  have key1 : ∀ e : Error, (reply c ("docker stop " ++ container) w).2 = some e →
      (c.Restart container w).1 = (false, some e)
      ∧ sent w (c.Restart container w).2 = ["docker stop " ++ container] := by
    intro e he
    have h : (c.Stop container w).1.2 = some e := by rw [Stop_err, he]
    rw [Restart_stop_failed c container w e h, hstopW]
    exact ⟨rfl, sent_oneShot c _ w⟩
  have key2 : ∀ e : Error, (reply c ("docker stop " ++ container) w).2 = none →
      (reply c ("docker start " ++ container) (c.Stop container w).2).2 = some e →
      (c.Restart container w).1 = (false, some e)
      ∧ sent w (c.Restart container w).2
          = ["docker stop " ++ container, "docker start " ++ container] := by
    intro e h0 he
    have h0s : (c.Stop container w).1.2 = none := by rw [Stop_err, h0]
    have h : (c.Start container (c.Stop container w).2).1.2 = some e := by rw [Start_err, he]
    rw [Restart_start_failed c container w e h0s h]
    exact ⟨rfl, sent_Stop_Start c container w⟩
  have key3 : (reply c ("docker stop " ++ container) w).2 = none →
      (sent w (c.Restart container w).2).take 2
          = ["docker stop " ++ container, "docker start " ++ container] := by
    intro h0
    have h0s : (c.Stop container w).1.2 = none := by rw [Stop_err, h0]
    cases h : (reply c ("docker start " ++ container) (c.Stop container w).2).2 with
    | some e => rw [(key2 e h0 h).2]; rfl
    | none =>
      have h1 : (c.Start container (c.Stop container w).2).1.2 = none := by rw [Start_err, h]
      rw [(Restart_polling_spec c container w h0s h1).2.1]
      rfl
  refine ⟨?_, key1, fun h0 => ⟨key3 h0, fun e he => key2 e h0 he⟩⟩
  cases h : (reply c ("docker stop " ++ container) w).2 with
  | some e => rw [(key1 e h).2]; rfl
  | none =>
    have h3 := key3 h
    cases hs : sent w (c.Restart container w).2 with
    | nil => rw [hs] at h3; simp at h3
    | cons x xs =>
      rw [hs] at h3
      cases xs with
      | nil => simp at h3
      | cons y ys =>
        simp at h3
        simp [h3.1]

/-- Witness for C1 on the scripted transport: a failing stop ends `Restart`
after one command, a failing start after two. -/
theorem Restart_stop_then_start_witness :
    ((fake.Restart "web" (World.init [("", some ⟨"stop failed"⟩), ("", none)])).1
        = (false, some ⟨"stop failed"⟩)
      ∧ sent (World.init [("", some ⟨"stop failed"⟩), ("", none)])
          (fake.Restart "web" (World.init [("", some ⟨"stop failed"⟩), ("", none)])).2
        = ["docker stop " ++ "web"])
    ∧ ((fake.Restart "web" (World.init [("", none), ("", some ⟨"start failed"⟩)])).1
        = (false, some ⟨"start failed"⟩)
      ∧ sent (World.init [("", none), ("", some ⟨"start failed"⟩)])
          (fake.Restart "web" (World.init [("", none), ("", some ⟨"start failed"⟩)])).2
        = ["docker stop " ++ "web", "docker start " ++ "web"]) :=
  ⟨(Restart_stop_then_start fake "web"
      (World.init [("", some ⟨"stop failed"⟩), ("", none)])).2.1 ⟨"stop failed"⟩ rfl,
   ((Restart_stop_then_start fake "web"
      (World.init [("", none), ("", some ⟨"start failed"⟩)])).2.2 rfl).2 ⟨"start failed"⟩ rfl⟩

/-- C2: when the transport accepts the stop and the start command, `Restart`
makes between one and five status polls, and it returns `(true, nil)` if and
only if one of the polls it made was answered without a transport error and
with trimmed output exactly `running`; when no poll was answered that way
(so an answer `running` that carries an error does not count), five polls were
made and `Restart` returns `false` with a non-nil error. -/
theorem Restart_success_iff_running (c : VmDockerCommander σ) (container : String)
    (w : World σ)
    (hstop : (reply c ("docker stop " ++ container) w).2 = none)
    (hstart : (reply c ("docker start " ++ container) (c.Stop container w).2).2 = none) :
    1 ≤ (polls container w (c.Restart container w).2).length
    ∧ (polls container w (c.Restart container w).2).length ≤ 5
    ∧ ((c.Restart container w).1 = (true, none)
        ↔ ∃ p ∈ polls container w (c.Restart container w).2,
            p.2 = none ∧ TrimSpace p.1 = "running")
    ∧ ((¬ ∃ p ∈ polls container w (c.Restart container w).2,
            p.2 = none ∧ TrimSpace p.1 = "running") →
        (polls container w (c.Restart container w).2).length = 5
        ∧ (c.Restart container w).1.1 = false
        ∧ (c.Restart container w).1.2 ≠ none) := by
  have h0 : (c.Stop container w).1.2 = none := by rw [Stop_err, hstop]
  have h1 : (c.Start container (c.Stop container w).2).1.2 = none := by rw [Start_err, hstart]
  obtain ⟨hp, _, hiff, hor⟩ := Restart_polling_spec c container w h0 h1
  have hlen := answers_length c.commander (statusCmd container) 5
    (c.Start container (c.Stop container w).2).2.remote
  have hany := made_any (answers c.commander (statusCmd container) 5
    (c.Start container (c.Stop container w).2).2.remote)
  have hiff2 : (c.Restart container w).1 = (true, none)
      ↔ ∃ p ∈ polls container w (c.Restart container w).2,
          p.2 = none ∧ TrimSpace p.1 = "running" := by
    rw [hiff, hp, ← hany]
    constructor
    · rintro ⟨p, hm, hr⟩
      exact ⟨p, hm, (isRunning_iff p).1 hr⟩
    · rintro ⟨p, hm, hr⟩
      exact ⟨p, hm, (isRunning_iff p).2 hr⟩
  refine ⟨?_, ?_, hiff2, ?_⟩
  · rw [hp]
    apply made_length_pos
    intro hnil
    rw [hnil] at hlen
    simp at hlen
  · rw [hp]
    exact le_trans (made_length_le _) (le_of_eq hlen)
  · intro hno
    have hnot : ¬ (c.Restart container w).1 = (true, none) := fun h => hno (hiff2.1 h)
    have hall : ∀ p ∈ answers c.commander (statusCmd container) 5
        (c.Start container (c.Stop container w).2).2.remote, isRunning p = false := by
      intro p hm
      cases hr : isRunning p with
      | false => rfl
      | true => exact absurd (hiff.2 ⟨p, hm, hr⟩) hnot
    refine ⟨?_, ?_, ?_⟩
    · rw [hp, made_of_none _ hall, hlen]
    · rcases hor with h | h
      · exact absurd h hnot
      · exact h.1
    · rcases hor with h | h
      · exact absurd h hnot
      · exact h.2

/-- Witness for C2 on the scripted transport: five answers `running` that each
carry a transport error make `Restart` fail. -/
theorem Restart_success_iff_running_witness :
    (reply fake ("docker stop " ++ "web") brokenPolls).2 = none
    ∧ (reply fake ("docker start " ++ "web") (fake.Stop "web" brokenPolls).2).2 = none
    ∧ (polls "web" brokenPolls (fake.Restart "web" brokenPolls).2).length = 5
    ∧ (fake.Restart "web" brokenPolls).1.1 = false
    ∧ (fake.Restart "web" brokenPolls).1.2 ≠ none :=
  ⟨rfl, rfl, (Restart_success_iff_running fake "web" brokenPolls rfl rfl).2.2.2 (by decide)⟩

/-- C3: when the transport accepts the stop and the start command and the
`(k+1)`-th status answer (`k < 5`) is the first one that reports `running`
without error, `Restart` sends the stop command, the start command and then
exactly `k+1` status queries, and returns `(true, nil)`; when none of the five
answers reports `running`, exactly five status queries are sent and `Restart`
returns `false`. -/
theorem Restart_poll_count (c : VmDockerCommander σ) (container : String) (w : World σ)
    (hstop : (reply c ("docker stop " ++ container) w).2 = none)
    (hstart : (reply c ("docker start " ++ container) (c.Stop container w).2).2 = none) :
    (∀ (k : Nat) (a : String × Option Error),
        (answers c.commander (statusCmd container) 5
          (c.Start container (c.Stop container w).2).2.remote)[k]? = some a →
        isRunning a = true →
        (∀ i, i < k → ∀ p,
          (answers c.commander (statusCmd container) 5
            (c.Start container (c.Stop container w).2).2.remote)[i]? = some p →
          isRunning p = false) →
        sent w (c.Restart container w).2
            = ("docker stop " ++ container) :: ("docker start " ++ container)
                :: List.replicate (k + 1) (statusCmd container)
        ∧ (polls container w (c.Restart container w).2).length = k + 1
        ∧ (c.Restart container w).1 = (true, none))
    ∧ ((∀ p ∈ answers c.commander (statusCmd container) 5
            (c.Start container (c.Stop container w).2).2.remote, isRunning p = false) →
        sent w (c.Restart container w).2
            = ("docker stop " ++ container) :: ("docker start " ++ container)
                :: List.replicate 5 (statusCmd container)
        ∧ (polls container w (c.Restart container w).2).length = 5
        ∧ (c.Restart container w).1.1 = false) := by
  have h0 : (c.Stop container w).1.2 = none := by rw [Stop_err, hstop]
  have h1 : (c.Start container (c.Stop container w).2).1.2 = none := by rw [Start_err, hstart]
  obtain ⟨hp, hs, hiff, hor⟩ := Restart_polling_spec c container w h0 h1
  have hlen := answers_length c.commander (statusCmd container) 5
    (c.Start container (c.Stop container w).2).2.remote
  constructor
  · intro k a hk ha hpre
    have hmade := made_of_first _ k a hk ha hpre
    have hk5 : k < 5 := by
      have := (List.getElem?_eq_some.1 hk).1
      rw [hlen] at this
      exact this
    have hl : (made (answers c.commander (statusCmd container) 5
        (c.Start container (c.Stop container w).2).2.remote)).length = k + 1 := by
      rw [hmade, List.length_take, hlen]
      omega
    refine ⟨?_, ?_, ?_⟩
    · rw [hs, hl]
    · rw [hp, hl]
    · exact hiff.2 ⟨a, List.getElem?_mem hk, ha⟩
  · intro hall
    have hl : (made (answers c.commander (statusCmd container) 5
        (c.Start container (c.Stop container w).2).2.remote)).length = 5 := by
      rw [made_of_none _ hall, hlen]
    refine ⟨?_, ?_, ?_⟩
    · rw [hs, hl]
    · rw [hp, hl]
    · rcases hor with h | h
      · obtain ⟨p, hm, hr⟩ := hiff.1 h
        rw [hall p hm] at hr
        cases hr
      · exact h.1

/-- Witness for C3 on the scripted transport: with the status answers
`exited`, `exited`, `running`, `Restart` succeeds after exactly three status
queries; with five answers that never report `running` it sends five. -/
theorem Restart_poll_count_witness :
    (reply fake ("docker stop " ++ "web") thirdPollRunning).2 = none
    ∧ (reply fake ("docker start " ++ "web") (fake.Stop "web" thirdPollRunning).2).2 = none
    ∧ sent thirdPollRunning (fake.Restart "web" thirdPollRunning).2
        = ["docker stop " ++ "web", "docker start " ++ "web",
            statusCmd "web", statusCmd "web", statusCmd "web"]
    ∧ (polls "web" thirdPollRunning (fake.Restart "web" thirdPollRunning).2).length = 3
    ∧ (fake.Restart "web" thirdPollRunning).1 = (true, none)
    ∧ sent brokenPolls (fake.Restart "web" brokenPolls).2
        = ("docker stop " ++ "web") :: ("docker start " ++ "web")
            :: List.replicate 5 (statusCmd "web")
    ∧ (polls "web" brokenPolls (fake.Restart "web" brokenPolls).2).length = 5
    ∧ (fake.Restart "web" brokenPolls).1.1 = false :=
  ⟨rfl, rfl,
    (Restart_poll_count fake "web" thirdPollRunning rfl rfl).1 2 ("running\n", none)
      rfl (by decide) (by decide) |>.1,
    (Restart_poll_count fake "web" thirdPollRunning rfl rfl).1 2 ("running\n", none)
      rfl (by decide) (by decide) |>.2.1,
    (Restart_poll_count fake "web" thirdPollRunning rfl rfl).1 2 ("running\n", none)
      rfl (by decide) (by decide) |>.2.2,
    (Restart_poll_count fake "web" brokenPolls rfl rfl).2 (by decide)⟩

end restart

/-! ## The claims about the single-shot operations -/

section single

variable {σ : Type}

/-- C4: `IsImageExist` returns `true` exactly when the transport's output,
with leading and trailing white space removed, is non-empty (that is, when the
output has a character that is not white space), and it returns the
transport's error unchanged; the boolean does not look at the error: empty or
blank output gives `false` and non-empty output gives `true`, with or without
an error. -/
theorem IsImageExist_iff_output (c : VmDockerCommander σ) (image : String) (w : World σ) :
    ((c.IsImageExist image w).1.1 = true
        ↔ TrimSpace (reply c ("docker images -q " ++ image) w).1 ≠ "")
    ∧ ((c.IsImageExist image w).1.1 = true
        ↔ ∃ ch ∈ (reply c ("docker images -q " ++ image) w).1.data, isSpace ch = false)
    ∧ (c.IsImageExist image w).1.2 = (reply c ("docker images -q " ++ image) w).2
    ∧ (fake.IsImageExist "busybox" (World.init [("", none)])).1 = (false, none)
    ∧ (fake.IsImageExist "busybox" (World.init [(" \t\n", some ⟨"exit 1"⟩)])).1
        = (false, some ⟨"exit 1"⟩)
    ∧ (fake.IsImageExist "busybox" (World.init [("47bcc53f74dc\n", none)])).1 = (true, none)
    ∧ (fake.IsImageExist "busybox" (World.init [("47bcc53f74dc\n", some ⟨"exit 1"⟩)])).1
        = (true, some ⟨"exit 1"⟩) := by
  have h1 : (c.IsImageExist image w).1.1 = true
      ↔ TrimSpace (reply c ("docker images -q " ++ image) w).1 ≠ "" := by
    rw [IsImageExist_eq]
    simp
  refine ⟨h1, ?_, ?_, by decide, by decide, by decide, by decide⟩
  · rw [h1, Ne, TrimSpace_eq_empty_iff]
    simp
  · rw [IsImageExist_eq]

/-- C6: `Status`, `Pull` and `GetID` each return the transport's output with
leading and trailing white space removed, and the transport's error unchanged.
`Pull("busybox")` on the output `" busybox:latest\n"` without error returns
`("busybox:latest", nil)`; `GetID` on empty or blank output without error
returns `("", nil)`. -/
theorem Status_Pull_GetID_trimmed (c : VmDockerCommander σ) (arg : String) (w : World σ) :
    (c.Status arg w).1
        = (TrimSpace
            (reply c ("docker inspect --format='\x7b\x7b.State.Status\x7d\x7d' " ++ arg) w).1,
           (reply c ("docker inspect --format='\x7b\x7b.State.Status\x7d\x7d' " ++ arg) w).2)
    ∧ (c.Pull arg w).1
        = (TrimSpace (reply c ("docker pull " ++ arg) w).1, (reply c ("docker pull " ++ arg) w).2)
    ∧ (c.GetID arg w).1
        = (TrimSpace (reply c ("docker ps -l -qf \"label=\"" ++ arg ++ "\"\"") w).1,
           (reply c ("docker ps -l -qf \"label=\"" ++ arg ++ "\"\"") w).2)
    ∧ ((c.GetID arg w).1.1 = ""
        ↔ ∀ ch ∈ (reply c ("docker ps -l -qf \"label=\"" ++ arg ++ "\"\"") w).1.data,
            isSpace ch = true)
    ∧ (fake.Pull "busybox" (World.init [(" busybox:latest\n", none)])).1
        = ("busybox:latest", none)
    ∧ (fake.GetID "app" (World.init [("", none)])).1 = ("", none)
    ∧ (fake.GetID "app" (World.init [(" \n", none)])).1 = ("", none)
    ∧ (fake.Status "web" (World.init [("\trunning \r\n", some ⟨"exit 1"⟩)])).1
        = ("running", some ⟨"exit 1"⟩) := by
  refine ⟨?_, ?_, ?_, ?_, by decide, by decide, by decide, by decide⟩
  · rw [Status_eq]
    rfl
  · rw [Pull_eq]
  · rw [GetID_eq]
  · rw [GetID_eq]
    exact TrimSpace_eq_empty_iff _

/-- C7: `Run`, `Start` and `Stop` each return the transport's error unchanged,
and the success flag is `true` if and only if that error is nil; the result is
`(true, nil)` or `(false, err)` and is independent of the output text. -/
theorem Run_Start_Stop_flag (c : VmDockerCommander σ) (options container : String)
    (w : World σ) :
    ((c.Run options container w).1.2
          = (reply c ("docker run " ++ options ++ " " ++ container) w).2
      ∧ ((c.Run options container w).1.1 = true
          ↔ (reply c ("docker run " ++ options ++ " " ++ container) w).2 = none))
    ∧ ((c.Start container w).1.2 = (reply c ("docker start " ++ container) w).2
      ∧ ((c.Start container w).1.1 = true
          ↔ (reply c ("docker start " ++ container) w).2 = none))
    ∧ ((c.Stop container w).1.2 = (reply c ("docker stop " ++ container) w).2
      ∧ ((c.Stop container w).1.1 = true
          ↔ (reply c ("docker stop " ++ container) w).2 = none)) := by
  rw [Run_eq, Start_eq, Stop_eq]
  simp

/-- C10: `Create` returns the transport's output unchanged (not trimmed) and a
nil error when the transport reports no error, and `("", err)` when the
transport reports the error `err`, whatever output came with it; `Exec`, `Ps`
and `LocalExec` return the transport's `(out, err)` unchanged in both cases. -/
theorem Create_discards_output (c : VmDockerCommander σ)
    (options image container command args cmd : String) (w : World σ) :
    ((reply c ("docker create " ++ options ++ " " ++ image) w).2 = none →
        (c.Create options image w).1
          = ((reply c ("docker create " ++ options ++ " " ++ image) w).1, none))
    ∧ (∀ e : Error, (reply c ("docker create " ++ options ++ " " ++ image) w).2 = some e →
        (c.Create options image w).1 = ("", some e))
    ∧ (c.Exec options container command args w).1
        = reply c
            ("docker exec " ++ options ++ " " ++ container ++ " " ++ command ++ " " ++ args) w
    ∧ (c.Ps w).1 = reply c "docker ps" w
    ∧ (c.LocalExec cmd w).1 = reply c cmd w := by
  refine ⟨?_, ?_, ?_, ?_, ?_⟩
  · intro h
    rw [Create_eq, h]
  · intro e h
    rw [Create_eq, h]
  · rw [Exec_eq]
  · rw [Ps_eq]
  · rw [LocalExec_eq]

/-- Witness for C10 on the scripted transport: without an error `Create`
hands back the untrimmed output; with an error the output is dropped. -/
theorem Create_discards_output_witness :
    (fake.Create "-t" "busybox" (World.init [(" 4f2a \n", none)])).1 = (" 4f2a \n", none)
    ∧ (fake.Create "-t" "busybox" (World.init [(" 4f2a \n", some ⟨"exit 125"⟩)])).1
        = ("", some ⟨"exit 125"⟩) :=
  ⟨(Create_discards_output fake "-t" "busybox" "" "" "" "" (World.init [(" 4f2a \n", none)])).1
      rfl,
   (Create_discards_output fake "-t" "busybox" "" "" "" ""
      (World.init [(" 4f2a \n", some ⟨"exit 125"⟩)])).2.1 ⟨"exit 125"⟩ rfl⟩

/-- C8: every operation sends its template with the arguments substituted
literally: whatever the argument strings are, the command that goes through
the transport is the fixed text of the template with the arguments copied in
between, nothing escaped or quoted. -/
theorem command_templates (c : VmDockerCommander σ)
    (container source target options command args image cmd : String) (w : World σ) :
    sent w (c.Ps w).2 = ["docker ps"]
    ∧ sent w (c.Start container w).2 = ["docker start " ++ container]
    ∧ sent w (c.Stop container w).2 = ["docker stop " ++ container]
    ∧ sent w (c.Status container w).2
        = ["docker inspect --format='\x7b\x7b.State.Status\x7d\x7d' " ++ container]
    ∧ sent w (c.Cp source container target w).2
        = ["docker cp " ++ container ++ ":" ++ source ++ " " ++ target]
    ∧ sent w (c.CpToContainer source container target w).2
        = ["docker cp " ++ source ++ " " ++ container ++ ":" ++ target]
    ∧ sent w (c.Exec options container command args w).2
        = ["docker exec " ++ options ++ " " ++ container ++ " " ++ command ++ " " ++ args]
    ∧ sent w (c.Run options container w).2 = ["docker run " ++ options ++ " " ++ container]
    ∧ sent w (c.Create options image w).2 = ["docker create " ++ options ++ " " ++ image]
    ∧ sent w (c.Rm container w).2 = ["docker rm " ++ container]
    ∧ sent w (c.Pull image w).2 = ["docker pull " ++ image]
    ∧ sent w (c.IsImageExist image w).2 = ["docker images -q " ++ image]
    ∧ sent w (c.LocalExec cmd w).2 = [cmd]
    ∧ sent (World.init [("", none)]) (fake.Status "a b;c" (World.init [("", none)])).2
        = ["docker inspect --format='\x7b\x7b.State.Status\x7d\x7d' a b;c"]
    ∧ sent (World.init [("", none)]) (fake.Cp "/etc/%s" "web" "/tmp/x y" (World.init [("", none)])).2
        = ["docker cp web:/etc/%s /tmp/x y"] := by
  rw [Ps_eq, Start_eq, Stop_eq, Status_eq, Cp_eq, CpToContainer_eq, Exec_eq, Run_eq, Create_eq,
    Rm_eq, Pull_eq, IsImageExist_eq, LocalExec_eq]
  simp only [sent_oneShot, statusCmd, true_and]
  exact ⟨by decide, by decide⟩

/-- C5, counterexample: for the label `app` the command `GetID` sends is
`docker ps -l -qf "label="app""`, which is not `docker ps -l -qf "label=app"`. -/
theorem GetID_command_not_single_quoted :
    sent (World.init [("", none)]) (fake.GetID "app" (World.init [("", none)])).2
        = ["docker ps -l -qf \"label=\"app\"\""]
    ∧ sent (World.init [("", none)]) (fake.GetID "app" (World.init [("", none)])).2
        ≠ ["docker ps -l -qf \"label=app\""] := by
  decide

/-- C5, amended: for every label `L` the command `GetID` sends is exactly the
text `docker ps -l -qf `, a double quote, `label=`, a double quote, `L`, and
two double quotes; for no label is that the text with `label=L` inside a
single pair of quotes. -/
theorem GetID_sends_doubled_quotes (c : VmDockerCommander σ) (label : String) (w : World σ) :
    sent w (c.GetID label w).2 = ["docker ps -l -qf \"label=\"" ++ label ++ "\"\""]
    ∧ sent w (c.GetID label w).2 ≠ ["docker ps -l -qf \"label=" ++ label ++ "\""] := by
  rw [GetID_eq, sent_oneShot]
  refine ⟨rfl, ?_⟩
  intro h
  have h1 := congrArg (fun l => l.map String.length) h
  simp [String.length_append] at h1
  have h2 : "docker ps -l -qf \"label=\"".length = 25 := by decide
  have h3 : "docker ps -l -qf \"label=".length = 24 := by decide
  have h4 : "\"\"".length = 2 := by decide
  have h5 : "\"".length = 1 := by decide
  omega

end single

/-! ## How many commands an operation sends -/

section counting

variable {σ : Type}

/-- C9, counterexample: `Restart` does not always send exactly two commands.
When the transport fails the stop command it sends one; when stop and start
succeed and the status answers are `exited`, `exited`, `running` it sends
five. -/
theorem Restart_not_two_commands :
    sent stopFails (fake.Restart "web" stopFails).2 = ["docker stop web"]
    ∧ (sent stopFails (fake.Restart "web" stopFails).2).length ≠ 2
    ∧ sent thirdPollRunning (fake.Restart "web" thirdPollRunning).2
        = ["docker stop web", "docker start web",
            "docker inspect --format='\x7b\x7b.State.Status\x7d\x7d' web",
            "docker inspect --format='\x7b\x7b.State.Status\x7d\x7d' web",
            "docker inspect --format='\x7b\x7b.State.Status\x7d\x7d' web"]
    ∧ (sent thirdPollRunning (fake.Restart "web" thirdPollRunning).2).length ≠ 2 := by
  decide

/-- C9, amended: every operation other than `Restart` sends exactly one command
per call.  `Restart` sends one command (stop) when the transport fails the
stop command, two (stop, start) when it accepts stop and fails start, and
otherwise stop, start and then between one and five status queries: between
three and seven commands. -/
theorem commands_per_call (c : VmDockerCommander σ)
    (container source target options command args image label cmd : String) (w : World σ) :
    ((sent w (c.Ps w).2).length = 1
      ∧ (sent w (c.Start container w).2).length = 1
      ∧ (sent w (c.Stop container w).2).length = 1
      ∧ (sent w (c.Status container w).2).length = 1
      ∧ (sent w (c.Cp source container target w).2).length = 1
      ∧ (sent w (c.CpToContainer source container target w).2).length = 1
      ∧ (sent w (c.Exec options container command args w).2).length = 1
      ∧ (sent w (c.LocalExec cmd w).2).length = 1
      ∧ (sent w (c.Run options container w).2).length = 1
      ∧ (sent w (c.Create options image w).2).length = 1
      ∧ (sent w (c.Rm container w).2).length = 1
      ∧ (sent w (c.GetID label w).2).length = 1
      ∧ (sent w (c.Pull image w).2).length = 1
      ∧ (sent w (c.IsImageExist image w).2).length = 1)
    ∧ (∀ e : Error, (reply c ("docker stop " ++ container) w).2 = some e →
        sent w (c.Restart container w).2 = ["docker stop " ++ container])
    ∧ ((reply c ("docker stop " ++ container) w).2 = none →
        ∀ e : Error, (reply c ("docker start " ++ container) (c.Stop container w).2).2 = some e →
        sent w (c.Restart container w).2
          = ["docker stop " ++ container, "docker start " ++ container])
    ∧ ((reply c ("docker stop " ++ container) w).2 = none →
        (reply c ("docker start " ++ container) (c.Stop container w).2).2 = none →
        ∃ k, 1 ≤ k ∧ k ≤ 5
          ∧ sent w (c.Restart container w).2
              = ("docker stop " ++ container) :: ("docker start " ++ container)
                  :: List.replicate k (statusCmd container)
          ∧ (sent w (c.Restart container w).2).length = k + 2) := by
  refine ⟨?_, ?_, ?_, ?_⟩
  · rw [Ps_eq, Start_eq, Stop_eq, Status_eq, Cp_eq, CpToContainer_eq, Exec_eq, Run_eq, Create_eq,
      Rm_eq, Pull_eq, IsImageExist_eq, LocalExec_eq, GetID_eq]
    simp [sent_oneShot]
  · intro e he
    have h : (c.Stop container w).1.2 = some e := by rw [Stop_err, he]
    rw [Restart_stop_failed c container w e h, Stop_eq]
    exact sent_oneShot c _ w
  · intro h0 e he
    have h0s : (c.Stop container w).1.2 = none := by rw [Stop_err, h0]
    have h : (c.Start container (c.Stop container w).2).1.2 = some e := by rw [Start_err, he]
    rw [Restart_start_failed c container w e h0s h]
    exact sent_Stop_Start c container w
  · intro h0 h1
    have h0s : (c.Stop container w).1.2 = none := by rw [Stop_err, h0]
    have h1s : (c.Start container (c.Stop container w).2).1.2 = none := by rw [Start_err, h1]
    obtain ⟨_, hs, _, _⟩ := Restart_polling_spec c container w h0s h1s
    have hlen := answers_length c.commander (statusCmd container) 5
      (c.Start container (c.Stop container w).2).2.remote
    refine ⟨(made (answers c.commander (statusCmd container) 5
      (c.Start container (c.Stop container w).2).2.remote)).length, ?_, ?_, hs, ?_⟩
    · apply made_length_pos
      intro hnil
      rw [hnil] at hlen
      simp at hlen
    · exact le_trans (made_length_le _) (le_of_eq hlen)
    · rw [hs]
      simp

/-- Witness for C9 (amended) on the scripted transport: one command when stop
fails, two when start fails, and stop, start and status queries otherwise. -/
theorem commands_per_call_witness :
    sent stopFails (fake.Restart "web" stopFails).2 = ["docker stop " ++ "web"]
    ∧ sent startFails (fake.Restart "web" startFails).2
        = ["docker stop " ++ "web", "docker start " ++ "web"]
    ∧ ∃ k, 1 ≤ k ∧ k ≤ 5
        ∧ sent thirdPollRunning (fake.Restart "web" thirdPollRunning).2
            = ("docker stop " ++ "web") :: ("docker start " ++ "web")
                :: List.replicate k (statusCmd "web")
        ∧ (sent thirdPollRunning (fake.Restart "web" thirdPollRunning).2).length = k + 2 :=
  ⟨(commands_per_call fake "web" "" "" "" "" "" "" "" "" stopFails).2.1 ⟨"stop failed"⟩ rfl,
   (commands_per_call fake "web" "" "" "" "" "" "" "" "" startFails).2.2.1 rfl
      ⟨"start failed"⟩ rfl,
   (commands_per_call fake "web" "" "" "" "" "" "" "" "" thirdPollRunning).2.2.2 rfl rfl⟩

end counting

end docker
